import Mathlib

/-!
Verification of the heart-disease risk-scoring engine in
src/streamlit_app.py.

The scoring logic (HeartDiseasePredictor.calculate_risk), the band
classification in main, the age-risk curve and the blood-pressure
category table are embedded below.  Python float arithmetic over the
small decimal weight constants is modelled with exact rationals (ℚ);
integer-valued clinical inputs are ℕ.
-/

/-- Risk band, as classified in main (lines 292-306): high, moderate, low. -/
inductive RiskBand
  | low
  | moderate
  | high
  deriving DecidableEq, Repr

/-- Factor rule bound to key age in HeartDiseasePredictor.risk_factors:
0.15 if x > 55 else (0.1 if x > 45 else 0). -/
def risk_factor_age (x : ℕ) : ℚ :=
  if x > 55 then 15/100 else if x > 45 then 1/10 else 0

/-- Factor rule bound to key blood_pressure:
0.15 if x > 140 else (0.1 if x > 130 else 0). -/
def risk_factor_blood_pressure (x : ℕ) : ℚ :=
  if x > 140 then 15/100 else if x > 130 then 1/10 else 0

/-- Factor rule bound to key cholesterol:
0.15 if x > 240 else (0.1 if x > 200 else 0). -/
def risk_factor_cholesterol (x : ℕ) : ℚ :=
  if x > 240 then 15/100 else if x > 200 then 1/10 else 0

/-- Factor rule bound to key chest_pain: 0.1 if x in [2, 3] else 0.
The ordinal codes (create_clinical_inputs, lines 147-148) are
Typical Angina 0, Atypical Angina 1, Non-anginal Pain 2, Asymptomatic 3. -/
def risk_factor_chest_pain (x : ℕ) : ℚ :=
  if x = 2 ∨ x = 3 then 1/10 else 0

/-- Factor rule bound to key diabetes (fasting blood sugar flag):
0.1 if x else 0. -/
def risk_factor_diabetes (x : Bool) : ℚ :=
  if x then 1/10 else 0

/-- Factor rule bound to key exercise_angina: 0.1 if x else 0. -/
def risk_factor_exercise_angina (x : Bool) : ℚ :=
  if x then 1/10 else 0

/-- Factor rule bound to key st_depression: 0.1 if x > 1.0 else 0. -/
def risk_factor_st_depression (x : ℚ) : ℚ :=
  if x > 1 then 1/10 else 0

/-- Factor rule bound to key vessels: 0.1 if x > 0 else 0. -/
def risk_factor_vessels (x : ℕ) : ℚ :=
  if x > 0 then 1/10 else 0

/-- Factor rule bound to key thalassemia: 0.1 if x in [1, 2] else 0.
Codes (create_clinical_inputs, line 149): Normal 0, Fixed Defect 1,
Reversible Defect 2. -/
def risk_factor_thalassemia (x : ℕ) : ℚ :=
  if x = 1 ∨ x = 2 then 1/10 else 0

/-- The heart-rate adjustment block of calculate_risk (lines 108-112):
add 0.1 when heart_rate < 120, else add 0.05 when heart_rate > 180. -/
def heart_rate_adjustment (x : ℕ) : ℚ :=
  if x < 120 then 1/10 else if x > 180 then 5/100 else 0

/-- The accumulated risk_score of calculate_risk just before the final
return: the nine factor rules applied in source order (lines 98-106)
plus the heart-rate adjustment (lines 109-112), summed. -/
def risk_sum (age bp cholesterol heart_rate chest_pain : ℕ)
    (diabetes exercise_angina : Bool) (st_depression : ℚ)
    (vessels thalassemia : ℕ) : ℚ :=
  risk_factor_age age + risk_factor_blood_pressure bp +
  risk_factor_cholesterol cholesterol + risk_factor_chest_pain chest_pain +
  risk_factor_diabetes diabetes + risk_factor_exercise_angina exercise_angina +
  risk_factor_st_depression st_depression + risk_factor_vessels vessels +
  risk_factor_thalassemia thalassemia + heart_rate_adjustment heart_rate

/-- HeartDiseasePredictor.calculate_risk (lines 91-115): accumulate the
factor contributions and return min(0.95, risk_score). -/
def calculate_risk (age bp cholesterol heart_rate chest_pain : ℕ)
    (diabetes exercise_angina : Bool) (st_depression : ℚ)
    (vessels thalassemia : ℕ) : ℚ :=
  min (95/100) (risk_sum age bp cholesterol heart_rate chest_pain diabetes
    exercise_angina st_depression vessels thalassemia)

/-- The ordered contribution trace: every factor rule of the table
evaluated independently, in the evaluation order of calculate_risk. -/
def contributions (age bp cholesterol heart_rate chest_pain : ℕ)
    (diabetes exercise_angina : Bool) (st_depression : ℚ)
    (vessels thalassemia : ℕ) : List (String × ℚ) :=
  [("age", risk_factor_age age),
   ("blood_pressure", risk_factor_blood_pressure bp),
   ("cholesterol", risk_factor_cholesterol cholesterol),
   ("chest_pain", risk_factor_chest_pain chest_pain),
   ("diabetes", risk_factor_diabetes diabetes),
   ("exercise_angina", risk_factor_exercise_angina exercise_angina),
   ("st_depression", risk_factor_st_depression st_depression),
   ("vessels", risk_factor_vessels vessels),
   ("thalassemia", risk_factor_thalassemia thalassemia),
   ("heart_rate", heart_rate_adjustment heart_rate)]

/-- The patient input record built by create_clinical_inputs
(lines 151-163), after conversion to numeric codes: sex is 1 for male
and 0 for female, chest_pain and thalassemia are the ordinal codes. -/
structure PatientInput where
  age : ℕ
  sex : ℕ
  blood_pressure : ℕ
  cholesterol : ℕ
  max_heart_rate : ℕ
  chest_pain : ℕ
  diabetes : Bool
  exercise_angina : Bool
  st_depression : ℚ
  vessels : ℕ
  thalassemia : ℕ

/-- The call of calculate_risk in main (lines 274-280): every field of
the input record except sex is passed, in this order. -/
def evaluate (p : PatientInput) : ℚ :=
  calculate_risk p.age p.blood_pressure p.cholesterol p.max_heart_rate
    p.chest_pain p.diabetes p.exercise_angina p.st_depression
    p.vessels p.thalassemia

/-- The band classification of main (lines 292-306):
risk_score > 0.7 gives high, elif risk_score > 0.3 gives moderate,
else low. -/
def classify (risk_score : ℚ) : RiskBand :=
  if risk_score > 7/10 then RiskBand.high
  else if risk_score > 3/10 then RiskBand.moderate
  else RiskBand.low

/-- Domain validity of a PatientInput: each field within the range its
form widget enforces (create_clinical_inputs, lines 124-142). -/
def ValidInput (p : PatientInput) : Prop :=
  20 ≤ p.age ∧ p.age ≤ 100 ∧ p.sex ≤ 1 ∧
  80 ≤ p.blood_pressure ∧ p.blood_pressure ≤ 200 ∧
  100 ≤ p.cholesterol ∧ p.cholesterol ≤ 600 ∧
  60 ≤ p.max_heart_rate ∧ p.max_heart_rate ≤ 220 ∧
  p.chest_pain ≤ 3 ∧
  0 ≤ p.st_depression ∧ p.st_depression ≤ 6 ∧
  p.vessels ≤ 3 ∧ p.thalassemia ≤ 2

/-- The age axis of the age-risk chart: np.arange(20, 80, 5)
(line 361). -/
def ages : List ℕ := [20, 25, 30, 35, 40, 45, 50, 55, 60, 65, 70, 75]

/-- One point of the base_risk series (line 362):
max(0.05, (age-20)/60 * 0.6). -/
def base_risk_at (age : ℕ) : ℚ :=
  max (5/100) (((age : ℚ) - 20)/60 * (6/10))

/-- The base_risk series of the age-risk chart (line 362). -/
def base_risk : List ℚ := ages.map base_risk_at

/-- Blood-pressure category names of the bp_categories table
(lines 378-384). -/
inductive BPCategory
  | normal
  | elevated
  | hypertensionStage1
  | hypertensionStage2
  | crisis
  deriving DecidableEq, Repr

/-- The bp_categories range table of main (lines 378-384):
Normal [90, 120], Elevated [120, 130], Hypertension Stage 1 [130, 140],
Hypertension Stage 2 [140, 180], Hypertensive Crisis [180, 200]. -/
def bp_categories : List (BPCategory × ℕ × ℕ) :=
  [(BPCategory.normal, 90, 120),
   (BPCategory.elevated, 120, 130),
   (BPCategory.hypertensionStage1, 130, 140),
   (BPCategory.hypertensionStage2, 140, 180),
   (BPCategory.crisis, 180, 200)]

/-- Modelled from the spec: the operation bloodPressureCategory is
described as a pure range lookup over the fixed boundaries of the
bp_categories table, but only the table itself appears in the source
(main plots it as a bar chart).  The lookup is modelled as first-match
membership over the closed ranges of the table, so a shared boundary
value unambiguously belongs to the lower category. -/
def bloodPressureCategory (bp : ℕ) : Option BPCategory :=
  (bp_categories.find? (fun c => decide (c.2.1 ≤ bp ∧ bp ≤ c.2.2))).map
    Prod.fst

/-- Round to nearest, ties to even, of a rational to an integer: the
tie-breaking rule of binary64 arithmetic, used below to model the one
inexact addition of the boundary input of the scoring path. -/
def roundHalfEven (q : ℚ) : ℤ :=
  if q - ⌊q⌋ < 1/2 then ⌊q⌋
  else if 1/2 < q - ⌊q⌋ then ⌊q⌋ + 1
  else if 2 ∣ ⌊q⌋ then ⌊q⌋ else ⌊q⌋ + 1

/-- Round to nearest, ties to even, onto the grid of integer multiples
of 2^-u: the rounding binary64 addition applies when the exact sum lies
in a binade whose unit in the last place is 2^-u (u = 55 for results in
[1/8, 1/4), u = 54 for results in [1/4, 1/2)). -/
def fl (u : ℕ) (x : ℚ) : ℚ := (roundHalfEven (x * 2 ^ u) : ℚ) / 2 ^ u

/-- The exact value of the binary64 double nearest the literal 0.1: the
weight the interpreter actually adds for each 0.1 contribution of
calculate_risk. -/
def double_tenth : ℚ := 3602879701896397 / 2 ^ 55

/-- The exact value of the binary64 double nearest the literal 0.3: the
band boundary the comparison risk_score > 0.3 of main (line 297)
actually uses. -/
def double_threetenths : ℚ := 5404319552844595 / 2 ^ 54

section FactorLemmas

lemma risk_factor_age_nonneg (x : ℕ) : 0 ≤ risk_factor_age x := by
  unfold risk_factor_age; split_ifs <;> norm_num

lemma risk_factor_blood_pressure_nonneg (x : ℕ) :
    0 ≤ risk_factor_blood_pressure x := by
  unfold risk_factor_blood_pressure; split_ifs <;> norm_num

lemma risk_factor_cholesterol_nonneg (x : ℕ) :
    0 ≤ risk_factor_cholesterol x := by
  unfold risk_factor_cholesterol; split_ifs <;> norm_num

lemma risk_factor_chest_pain_nonneg (x : ℕ) :
    0 ≤ risk_factor_chest_pain x := by
  unfold risk_factor_chest_pain; split_ifs <;> norm_num

lemma risk_factor_diabetes_nonneg (x : Bool) :
    0 ≤ risk_factor_diabetes x := by
  unfold risk_factor_diabetes; split_ifs <;> norm_num

lemma risk_factor_exercise_angina_nonneg (x : Bool) :
    0 ≤ risk_factor_exercise_angina x := by
  unfold risk_factor_exercise_angina; split_ifs <;> norm_num

lemma risk_factor_st_depression_nonneg (x : ℚ) :
    0 ≤ risk_factor_st_depression x := by
  unfold risk_factor_st_depression; split_ifs <;> norm_num

lemma risk_factor_vessels_nonneg (x : ℕ) : 0 ≤ risk_factor_vessels x := by
  unfold risk_factor_vessels; split_ifs <;> norm_num

lemma risk_factor_thalassemia_nonneg (x : ℕ) :
    0 ≤ risk_factor_thalassemia x := by
  unfold risk_factor_thalassemia; split_ifs <;> norm_num

lemma heart_rate_adjustment_nonneg (x : ℕ) :
    0 ≤ heart_rate_adjustment x := by
  unfold heart_rate_adjustment; split_ifs <;> norm_num

lemma risk_sum_nonneg (age bp cholesterol heart_rate chest_pain : ℕ)
    (diabetes exercise_angina : Bool) (st_depression : ℚ)
    (vessels thalassemia : ℕ) :
    0 ≤ risk_sum age bp cholesterol heart_rate chest_pain diabetes
      exercise_angina st_depression vessels thalassemia := by
  unfold risk_sum
  have h1 := risk_factor_age_nonneg age
  have h2 := risk_factor_blood_pressure_nonneg bp
  have h3 := risk_factor_cholesterol_nonneg cholesterol
  have h4 := risk_factor_chest_pain_nonneg chest_pain
  have h5 := risk_factor_diabetes_nonneg diabetes
  have h6 := risk_factor_exercise_angina_nonneg exercise_angina
  have h7 := risk_factor_st_depression_nonneg st_depression
  have h8 := risk_factor_vessels_nonneg vessels
  have h9 := risk_factor_thalassemia_nonneg thalassemia
  have h10 := heart_rate_adjustment_nonneg heart_rate
  linarith

lemma risk_factor_age_mono {x y : ℕ} (h : x ≤ y) :
    risk_factor_age x ≤ risk_factor_age y := by
  unfold risk_factor_age
  split_ifs <;> first | omega | norm_num

lemma risk_factor_blood_pressure_mono {x y : ℕ} (h : x ≤ y) :
    risk_factor_blood_pressure x ≤ risk_factor_blood_pressure y := by
  unfold risk_factor_blood_pressure
  split_ifs <;> first | omega | norm_num

lemma risk_factor_cholesterol_mono {x y : ℕ} (h : x ≤ y) :
    risk_factor_cholesterol x ≤ risk_factor_cholesterol y := by
  unfold risk_factor_cholesterol
  split_ifs <;> first | omega | norm_num

end FactorLemmas

/-- C1: for every PatientInput whose fields lie within their declared
domains, the score returned by evaluate satisfies 0.0 ≤ score ≤ 0.95. -/
theorem risk_score_bounds (p : PatientInput) (h : ValidInput p) :
    0 ≤ evaluate p ∧ evaluate p ≤ 95/100 := by
  unfold evaluate calculate_risk
  constructor
  · exact le_min (by norm_num) (risk_sum_nonneg _ _ _ _ _ _ _ _ _ _)
  · exact min_le_left _ _

/-- Witness for C1 at a concrete valid input. -/
theorem risk_score_bounds_witness :
    0 ≤ evaluate ⟨50, 1, 120, 200, 150, 0, false, false, 1, 0, 0⟩ ∧
    evaluate ⟨50, 1, 120, 200, 150, 0, false, false, 1, 0, 0⟩ ≤ 95/100 :=
  risk_score_bounds ⟨50, 1, 120, 200, 150, 0, false, false, 1, 0, 0⟩
    (by unfold ValidInput; norm_num)

/-- C2: the band shown for a score produced by evaluate is derived
exactly by: score > 0.7 gives high, 0.3 < score ≤ 0.7 gives moderate,
score ≤ 0.3 gives low. -/
theorem band_consistency (p : PatientInput) :
    (evaluate p > 7/10 → classify (evaluate p) = RiskBand.high) ∧
    (3/10 < evaluate p ∧ evaluate p ≤ 7/10 →
      classify (evaluate p) = RiskBand.moderate) ∧
    (evaluate p ≤ 3/10 → classify (evaluate p) = RiskBand.low) := by
  refine ⟨fun h => ?_, fun h => ?_, fun h => ?_⟩ <;> unfold classify
  · rw [if_pos h]
  · rw [if_neg (by intro hc; linarith [h.2]), if_pos h.1]
  · rw [if_neg (by intro hc; linarith), if_neg (by intro hc; linarith)]

/-- Witness for C2 at a concrete input whose score is 0. -/
theorem band_consistency_witness :
    classify (evaluate ⟨30, 0, 110, 180, 150, 0, false, false, 1/5, 0, 0⟩) =
      RiskBand.low :=
  (band_consistency ⟨30, 0, 110, 180, 150, 0, false, false, 1/5, 0, 0⟩).2.2
    (by norm_num [evaluate, calculate_risk, risk_sum, risk_factor_age,
      risk_factor_blood_pressure, risk_factor_cholesterol,
      risk_factor_chest_pain, risk_factor_diabetes,
      risk_factor_exercise_angina, risk_factor_st_depression,
      risk_factor_vessels, risk_factor_thalassemia, heart_rate_adjustment,
      min_def])

/-- C3: the score returned by calculate_risk equals min(0.95, S) where
S is the sum of the individual factor contributions of the ordered
contribution trace. -/
theorem contribution_sum_law (age bp cholesterol heart_rate chest_pain : ℕ)
    (diabetes exercise_angina : Bool) (st_depression : ℚ)
    (vessels thalassemia : ℕ) :
    calculate_risk age bp cholesterol heart_rate chest_pain diabetes
      exercise_angina st_depression vessels thalassemia =
    min (95/100) (((contributions age bp cholesterol heart_rate chest_pain
      diabetes exercise_angina st_depression vessels
      thalassemia).map Prod.snd).sum) := by
  unfold calculate_risk contributions risk_sum
  simp only [List.map_cons, List.map_nil, List.sum_cons, List.sum_nil]
  congr 1
  ring

/-- C4 counterexample: atypical angina has ordinal code 1, and the
chest-pain rule of the source gives it contribution 0, not 0.10; the
0.10 contribution goes to asymptomatic (code 3) instead. -/
theorem chest_pain_atypical_cex :
    risk_factor_chest_pain 1 = 0 ∧ risk_factor_chest_pain 1 ≠ 1/10 ∧
    risk_factor_chest_pain 3 = 1/10 := by
  refine ⟨?_, ?_, ?_⟩ <;> norm_num [risk_factor_chest_pain]

/-- C4 amended: the chest-pain factor contributes 0.10 exactly when the
ordinal code is 2 (non-anginal) or 3 (asymptomatic), and 0.0 for
typical (0) and atypical (1). -/
theorem chest_pain_rule (x : ℕ) :
    (risk_factor_chest_pain x = 1/10 ↔ x = 2 ∨ x = 3) ∧
    (x = 0 ∨ x = 1 → risk_factor_chest_pain x = 0) := by
  constructor
  · unfold risk_factor_chest_pain
    split_ifs with h
    · exact iff_of_true rfl h
    · exact iff_of_false (by norm_num) h
  · rintro (rfl | rfl) <;> norm_num [risk_factor_chest_pain]

/-- Witness for C4's amended theorem at the codes 0 and 2. -/
theorem chest_pain_rule_witness :
    risk_factor_chest_pain 0 = 0 ∧ risk_factor_chest_pain 2 = 1/10 :=
  ⟨(chest_pain_rule 0).2 (Or.inl rfl), (chest_pain_rule 2).1.mpr (Or.inl rfl)⟩

/-- C5: at age 50, bp 135, cholesterol 210, heart rate 140, typical
chest pain and every other factor negative, the rule table yields
exactly 0.30 = 0.10 + 0.10 + 0.10, which an exclusive 0.3 boundary
classifies low — but the interpreter's binary64 accumulation of the
three 0.1 weights is inexact: the first addition is exact, the second
is a half-even tie that rounds up to d(0.3) + 2^-54, about
0.30000000000000004, strictly above the double 0.3 of the band test,
so the running program takes the moderate branch at this very input. -/
theorem boundary_example_float_bug :
    calculate_risk 50 135 210 140 0 false false 1 0 0 = 3/10 ∧
    classify (calculate_risk 50 135 210 140 0 false false 1 0 0) =
      RiskBand.low ∧
    fl 55 (double_tenth + double_tenth) = double_tenth + double_tenth ∧
    fl 54 (fl 55 (double_tenth + double_tenth) + double_tenth) =
      double_threetenths + 1 / 2 ^ 54 ∧
    double_threetenths <
      fl 54 (fl 55 (double_tenth + double_tenth) + double_tenth) := by
  have hr : calculate_risk 50 135 210 140 0 false false 1 0 0 = 3/10 := by
    norm_num [calculate_risk, risk_sum, risk_factor_age,
      risk_factor_blood_pressure, risk_factor_cholesterol,
      risk_factor_chest_pain, risk_factor_diabetes,
      risk_factor_exercise_angina, risk_factor_st_depression,
      risk_factor_vessels, risk_factor_thalassemia, heart_rate_adjustment,
      min_def]
  refine ⟨hr, ?_, ?_, ?_, ?_⟩
  · rw [hr]
    unfold classify
    rw [if_neg (by norm_num), if_neg (by norm_num)]
  · norm_num [fl, roundHalfEven, double_tenth]
  · norm_num [fl, roundHalfEven, double_tenth, double_threetenths]
  · norm_num [fl, roundHalfEven, double_tenth, double_threetenths]

/-- C6 counterexample: at age 60, bp 150, cholesterol 250, heart rate
110, atypical chest pain (code 1), positive blood sugar, angina,
st depression 2.0, one vessel and fixed-defect thalassemia, the
uncapped contribution sum is 1.05, not at least 1.20: the age rule
gives 0.15 (not 0.20) and atypical chest pain contributes 0. -/
theorem high_example_sum_cex :
    risk_sum 60 150 250 110 1 true true 2 1 1 = 105/100 ∧
    ¬ (6/5 ≤ risk_sum 60 150 250 110 1 true true 2 1 1) := by
  have hs : risk_sum 60 150 250 110 1 true true 2 1 1 = 105/100 := by
    norm_num [risk_sum, risk_factor_age, risk_factor_blood_pressure,
      risk_factor_cholesterol, risk_factor_chest_pain, risk_factor_diabetes,
      risk_factor_exercise_angina, risk_factor_st_depression,
      risk_factor_vessels, risk_factor_thalassemia, heart_rate_adjustment]
  exact ⟨hs, by rw [hs]; norm_num⟩

/-- C6 amended: at that input the uncapped sum is exactly 1.05 (which
is at least 1.05), the clamped score is exactly 0.95, and the band is
high. -/
theorem high_example_amended :
    risk_sum 60 150 250 110 1 true true 2 1 1 = 105/100 ∧
    calculate_risk 60 150 250 110 1 true true 2 1 1 = 95/100 ∧
    classify (calculate_risk 60 150 250 110 1 true true 2 1 1) =
      RiskBand.high := by
  have hs : risk_sum 60 150 250 110 1 true true 2 1 1 = 105/100 := by
    norm_num [risk_sum, risk_factor_age, risk_factor_blood_pressure,
      risk_factor_cholesterol, risk_factor_chest_pain, risk_factor_diabetes,
      risk_factor_exercise_angina, risk_factor_st_depression,
      risk_factor_vessels, risk_factor_thalassemia, heart_rate_adjustment]
  have hc : calculate_risk 60 150 250 110 1 true true 2 1 1 = 95/100 := by
    unfold calculate_risk
    rw [hs]
    norm_num [min_def]
  refine ⟨hs, hc, ?_⟩
  rw [hc]
  unfold classify
  rw [if_pos (by norm_num)]

/-- C7: the score of evaluate is monotone non-decreasing in age, in
resting blood pressure and in cholesterol, each with every other field
held fixed. -/
theorem score_monotone :
    (∀ (p : PatientInput) (a : ℕ), p.age ≤ a →
      evaluate p ≤ evaluate { p with age := a }) ∧
    (∀ (p : PatientInput) (b : ℕ), p.blood_pressure ≤ b →
      evaluate p ≤ evaluate { p with blood_pressure := b }) ∧
    (∀ (p : PatientInput) (c : ℕ), p.cholesterol ≤ c →
      evaluate p ≤ evaluate { p with cholesterol := c }) := by
  refine ⟨fun p a h => ?_, fun p b h => ?_, fun p c h => ?_⟩ <;>
    unfold evaluate calculate_risk risk_sum <;>
    dsimp only <;>
    refine min_le_min le_rfl ?_ <;>
    first
      | linarith [risk_factor_age_mono h]
      | linarith [risk_factor_blood_pressure_mono h]
      | linarith [risk_factor_cholesterol_mono h]

/-- Witness for C7: raising age from 50 to 60 with all else fixed. -/
theorem score_monotone_witness :
    evaluate ⟨50, 1, 120, 200, 150, 0, false, false, 1, 0, 0⟩ ≤
    evaluate ⟨60, 1, 120, 200, 150, 0, false, false, 1, 0, 0⟩ :=
  score_monotone.1 ⟨50, 1, 120, 200, 150, 0, false, false, 1, 0, 0⟩ 60
    (by norm_num)

/-- C8 counterexample: no choice of constants cap and scaleFactor makes
the base_risk series equal min(cap, (age-20)/60 * scaleFactor) on the
configured age range: at age 20 the source value is max(0.05, 0) = 0.05,
while min(cap, 0) is at most 0. -/
theorem age_curve_cap_cex :
    ¬ ∃ cap scale : ℚ, ∀ a ∈ ages,
      base_risk_at a = min cap (((a : ℚ) - 20)/60 * scale) := by
  rintro ⟨cap, scale, h⟩
  have h20 := h 20 (by simp [ages])
  have hv : base_risk_at 20 = 5/100 := by
    unfold base_risk_at
    norm_num
  have hz : (((20 : ℕ) : ℚ) - 20)/60 * scale = 0 := by
    push_cast
    ring_nf
  rw [hv, hz] at h20
  have := min_le_right cap (0 : ℚ)
  rw [← h20] at this
  norm_num at this

/-- C8 amended: the base_risk series applies a floor, not a cap:
relativeRisk = max(0.05, (age-20)/60 * 0.6); on the configured age
range the value never falls below the floor 0.05, and never exceeds
0.55 (attained at age 75). -/
theorem age_curve_floor (a : ℕ) (h : a ∈ ages) :
    base_risk_at a = max (5/100) (((a : ℚ) - 20)/60 * (6/10)) ∧
    5/100 ≤ base_risk_at a ∧ base_risk_at a ≤ 55/100 := by
  refine ⟨rfl, le_max_left _ _, ?_⟩
  simp only [ages, List.mem_cons, List.not_mem_nil, or_false] at h
  rcases h with rfl | rfl | rfl | rfl | rfl | rfl | rfl | rfl | rfl | rfl |
    rfl | rfl <;>
    norm_num [base_risk_at]

/-- Witness for C8's amended theorem at age 75. -/
theorem age_curve_floor_witness :
    base_risk_at 75 = max (5/100) (((75 : ℚ) - 20)/60 * (6/10)) ∧
    5/100 ≤ base_risk_at 75 ∧ base_risk_at 75 ≤ 55/100 := by
  have h := age_curve_floor 75 (by simp [ages])
  have hc : ((75 : ℕ) : ℚ) = (75 : ℚ) := by norm_num
  rw [hc] at h
  exact h

set_option maxRecDepth 10000 in
/-- C9: on every blood pressure in [90, 200] the modelled category
lookup is total and unambiguous: each value gets exactly one of the
five categories, determined by the fixed boundaries of the table, the
shared boundary values 120, 130, 140 and 180 resolving to the lower
category by first match. -/
theorem bp_category_total (bp : ℕ) (hlt : bp < 201) (hge : 90 ≤ bp) :
    bloodPressureCategory bp =
      some (if bp ≤ 120 then BPCategory.normal
        else if bp ≤ 130 then BPCategory.elevated
        else if bp ≤ 140 then BPCategory.hypertensionStage1
        else if bp ≤ 180 then BPCategory.hypertensionStage2
        else BPCategory.crisis) := by
  revert hge
  revert hlt
  revert bp
  decide

/-- Witness for C9 at the shared boundary value 120. -/
theorem bp_category_total_witness :
    bloodPressureCategory 120 = some BPCategory.normal :=
  bp_category_total 120 (by norm_num) (by norm_num)

/-- C10: two valid inputs that differ only in the sex field produce
the identical score and the identical band: the sex input is never
passed to calculate_risk. -/
theorem sex_noninterference (p : PatientInput) (s1 s2 : ℕ)
    (h1 : ValidInput { p with sex := s1 })
    (h2 : ValidInput { p with sex := s2 }) :
    evaluate { p with sex := s1 } = evaluate { p with sex := s2 } ∧
    classify (evaluate { p with sex := s1 }) =
      classify (evaluate { p with sex := s2 }) :=
  ⟨rfl, rfl⟩

/-- Witness for C10 at a concrete input with the two sexes. -/
theorem sex_noninterference_witness :
    evaluate ⟨50, 0, 120, 200, 150, 0, false, false, 1, 0, 0⟩ =
      evaluate ⟨50, 1, 120, 200, 150, 0, false, false, 1, 0, 0⟩ ∧
    classify (evaluate ⟨50, 0, 120, 200, 150, 0, false, false, 1, 0, 0⟩) =
      classify (evaluate ⟨50, 1, 120, 200, 150, 0, false, false, 1, 0, 0⟩) :=
  sex_noninterference ⟨50, 0, 120, 200, 150, 0, false, false, 1, 0, 0⟩ 0 1
    (by unfold ValidInput; norm_num) (by unfold ValidInput; norm_num)
